import Mathlib

/-!
# Three-body-problem simulator: physics core

A shallow embedding of the physics-relevant part of `src/index.js`
(`calculateGravitationalForce`, `updateState`, `updateTrail`,
`createCelestialObject`, `init`, `restart`, the random-button handler and the
random generators), followed by theorems about it.

Numbers are idealised: JavaScript doubles are modelled by an ordered field `K`
(the theorems that need a square root are stated for the reals).  The two
primitives that have no field-independent meaning, `Math.sqrt` and `/`, are
passed in explicitly so that every definition stays executable.
-/

set_option autoImplicit false
set_option linter.unusedSectionVars false

namespace ThreeBody

/-! ## Numeric primitives -/

/-- The primitives of the host arithmetic that the program calls:
`Math.sqrt` and the division operator. -/
structure MathOps (K : Type) where
  sqrt : K → K
  div : K → K → K

/-- Exact arithmetic over a field, with a chosen square-root function. -/
def fieldOps {K : Type} [Field K] (sqrt : K → K) : MathOps K :=
  ⟨sqrt, fun x y => x / y⟩

/-! ## Vector3 -/

/-- Modelled from the spec: the three.js `Vector3` class is an external
dependency that is absent from src/ ("a standard 3D vector with
add/subtract/scale/normalize/length"); a vector is its three components. -/
structure Vec3 (K : Type) where
  x : K
  y : K
  z : K
deriving DecidableEq, Repr

namespace Vec3

variable {K : Type} [LinearOrderedField K]

/-- Modelled from the spec: `new THREE.Vector3(0, 0, 0)`. -/
def zero : Vec3 K := ⟨0, 0, 0⟩

/-- Modelled from the spec: `Vector3.add`, componentwise sum. -/
def add (a b : Vec3 K) : Vec3 K := ⟨a.x + b.x, a.y + b.y, a.z + b.z⟩

/-- Modelled from the spec: `Vector3.subVectors(a, b)`, the difference `a - b`. -/
def subVectors (a b : Vec3 K) : Vec3 K := ⟨a.x - b.x, a.y - b.y, a.z - b.z⟩

/-- Modelled from the spec: `Vector3.multiplyScalar`. -/
def multiplyScalar (v : Vec3 K) (s : K) : Vec3 K := ⟨v.x * s, v.y * s, v.z * s⟩

/-- Modelled from the spec: `Vector3.divideScalar(s)`, which three.js defines as
`multiplyScalar(1 / s)`. -/
def divideScalar (ops : MathOps K) (v : Vec3 K) (s : K) : Vec3 K :=
  v.multiplyScalar (ops.div 1 s)

/-- Modelled from the spec: `Vector3.lengthSq`. -/
def lengthSq (v : Vec3 K) : K := v.x * v.x + v.y * v.y + v.z * v.z

/-- Modelled from the spec: `Vector3.length`, `Math.sqrt` of the sum of squares. -/
def length (ops : MathOps K) (v : Vec3 K) : K :=
  ops.sqrt (v.x * v.x + v.y * v.y + v.z * v.z)

/-- Modelled from the spec: `Vector3.normalize`, which three.js defines as
`divideScalar(length() || 1)`. -/
def normalize (ops : MathOps K) (v : Vec3 K) : Vec3 K :=
  v.divideScalar ops (if v.length ops = 0 then 1 else v.length ops)

end Vec3

/-! ## Bodies -/

/-- An RGB colour as produced by `getRandomColor`. -/
structure Color where
  r : ℤ
  g : ℤ
  b : ℤ
deriving DecidableEq, Repr

/-- The sphere mesh of a body: only the fields the program writes. -/
structure Mesh (K : Type) where
  radius : K
  color : Color
  position : Vec3 K

/-- The object returned by `createLine`; the three.js line geometry is a
rendering buffer derived from `points`. -/
structure Trail (K : Type) where
  color : Color
  points : List (Vec3 K)

/-- The object returned by `createCelestialObject`. -/
structure CelestialObject (K : Type) where
  mesh : Mesh K
  trail : Trail K
  mass : K
  position : Vec3 K
  velocity : Vec3 K

variable {K : Type} [LinearOrderedField K]

/-- The constant `G = 1e-3`. -/
def G : K := 1 / 1000

/-- The function `calculateGravitationalForce(a, b)`. -/
def calculateGravitationalForce (ops : MathOps K) (a b : CelestialObject K) : Vec3 K :=
  let vectorBetweenBodies := Vec3.subVectors b.position a.position
  let distanceSquared := vectorBetweenBodies.lengthSq
  if distanceSquared = 0 then Vec3.zero
  else
    let forceMagnitude := ops.div (G * a.mass * b.mass) distanceSquared
    (vectorBetweenBodies.normalize ops).multiplyScalar forceMagnitude

/-- The inner `j` loop of `updateState`: the force accumulated for body `i`
from the current contents of the array. -/
def totalForce (ops : MathOps K) (celestialObjects : List (CelestialObject K))
    (celestialObject : CelestialObject K) (i : ℕ) : Vec3 K :=
  celestialObjects.enum.foldl
    (fun total jb =>
      if i ≠ jb.1 then total.add (calculateGravitationalForce ops celestialObject jb.2)
      else total)
    Vec3.zero

/-- One iteration of the outer `i` loop of `updateState`: the body at index `i`
is mutated in place (velocity first, then position with the new velocity). -/
def updateStateStep (ops : MathOps K) (deltaTime : K)
    (celestialObjects : List (CelestialObject K)) (i : ℕ) : List (CelestialObject K) :=
  match celestialObjects[i]? with
  | none => celestialObjects
  | some celestialObject =>
    let acceleration :=
      (totalForce ops celestialObjects celestialObject i).divideScalar ops celestialObject.mass
    let velocity := celestialObject.velocity.add (acceleration.multiplyScalar deltaTime)
    let position := celestialObject.position.add (velocity.multiplyScalar deltaTime)
    celestialObjects.set i { celestialObject with velocity := velocity, position := position }

/-- The function `updateState(celestialObjects, deltaTime)`. -/
def updateState (ops : MathOps K) (celestialObjects : List (CelestialObject K))
    (deltaTime : K) : List (CelestialObject K) :=
  (List.range celestialObjects.length).foldl (updateStateStep ops deltaTime) celestialObjects

/-- The function `updateTrail(celestialObject, maxTrailPoints = 3000)`, restricted
to the point list; the line geometry is rebuilt from that list on every call. -/
def updateTrail (celestialObject : CelestialObject K) (maxTrailPoints : ℤ) :
    CelestialObject K :=
  let points := celestialObject.trail.points ++ [celestialObject.position]
  let points :=
    if maxTrailPoints ≠ -1 then
      if maxTrailPoints < (points.length : ℤ) then points.tail else points
    else points
  { celestialObject with trail := { celestialObject.trail with points := points } }

/-- The default value of the parameter `maxTrailPoints`. -/
def defaultMaxTrailPoints : ℤ := 3000

/-- The function `updateCelestialObjects(celestialObjects)`. -/
def updateCelestialObjects (celestialObjects : List (CelestialObject K)) :
    List (CelestialObject K) :=
  celestialObjects.map fun celestialObject =>
    updateTrail
      { celestialObject with
        mesh := { celestialObject.mesh with position := celestialObject.position } }
      defaultMaxTrailPoints

/-! ## Configurations and random generation -/

/-- An entry of `celestialObjectConfigs`.  The built-in entries carry no colour. -/
structure Config (K : Type) where
  radius : K
  color : Option Color
  position : Vec3 K
  velocity : Vec3 K
  mass : K

/-- The initial contents of `celestialObjectConfigs`. -/
def initialConfigs : List (Config K) :=
  [ ⟨20, none, ⟨0, 0, 0⟩, ⟨0, 0, 0⟩, 20000000⟩,
    ⟨5, none, ⟨100, 0, 0⟩, ⟨0, 0, -14⟩, 10000⟩,
    ⟨5, none, ⟨200, 0, 0⟩, ⟨0, 0, -10⟩, 10000⟩,
    ⟨8, none, ⟨350, 0, 0⟩, ⟨0, 0, -8⟩, 50000⟩,
    ⟨6, none, ⟨450, 0, 0⟩, ⟨0, 1, -6⟩, 80000⟩ ]

variable [FloorRing K]

/-- The function `getRandomColor()`.  `rnd k` is the value of the `k`-th call of
`Math.random()`; `n` is the number of calls made so far, and the new count is
returned with the result. -/
def getRandomColor (rnd : ℕ → K) (n : ℕ) : Color × ℕ :=
  let r := ⌊rnd n * 256⌋
  let g := ⌊rnd (n + 1) * 256⌋
  let b := ⌊rnd (n + 2) * 256⌋
  (⟨r, g, b⟩, n + 3)

/-- The function `getRandomPosition(maxDistance)`. -/
def getRandomPosition (rnd : ℕ → K) (n : ℕ) (maxDistance : K) : Vec3 K × ℕ :=
  let x : ℤ := ⌊rnd n * maxDistance⌋
  let y : ℤ := ⌊rnd (n + 1) * maxDistance⌋
  let z : ℤ := ⌊rnd (n + 2) * maxDistance⌋
  (⟨(x : K), (y : K), (z : K)⟩, n + 3)

/-- The function `getRandomVelocity(maxSpeed)`. -/
def getRandomVelocity (rnd : ℕ → K) (n : ℕ) (maxSpeed : K) : Vec3 K × ℕ :=
  let x := rnd n * 2 * maxSpeed - maxSpeed
  let y := rnd (n + 1) * 2 * maxSpeed - maxSpeed
  let z := rnd (n + 2) * 2 * maxSpeed - maxSpeed
  (⟨x, y, z⟩, n + 3)

/-- The function `createSphere({ radius, color })`; a new mesh sits at the origin. -/
def createSphere (radius : K) (color : Color) : Mesh K :=
  ⟨radius, color, Vec3.zero⟩

/-- The function `createLine(color)`. -/
def createLine (color : Color) : Trail K :=
  ⟨color, []⟩

/-- The function `createCelestialObject({ radius, mass, position, velocity })`.
The colour of the configuration is ignored; a fresh one is drawn. -/
def createCelestialObject (rnd : ℕ → K) (n : ℕ) (configs : Config K) :
    CelestialObject K × ℕ :=
  let (color, n) := getRandomColor rnd n
  let mesh := createSphere configs.radius color
  let trail := createLine color
  ({ mesh := mesh,
     trail := trail,
     mass := configs.mass,
     position := ⟨configs.position.x, configs.position.y, configs.position.z⟩,
     velocity := ⟨configs.velocity.x, configs.velocity.y, configs.velocity.z⟩ }, n)

/-! ## The simulation controller -/

/-- The module-level mutable state that the physics reads or writes.  The scene,
camera, renderer and controls are rendering collaborators and are left out. -/
structure SimState (K : Type) where
  timeRate : K
  bodiesNumber : ℕ
  celestialObjectConfigs : List (Config K)
  celestialObjects : List (CelestialObject K)
  randomCalls : ℕ

/-- The function `clearCelestialObjects(celestialObjects)`. -/
def clearCelestialObjects (s : SimState K) : SimState K :=
  { s with celestialObjects := [] }

/-- The function `init()`: one new body is pushed per configuration, in order. -/
def init (rnd : ℕ → K) (s : SimState K) : SimState K :=
  s.celestialObjectConfigs.foldl
    (fun s configs =>
      let (celestialObject, n) := createCelestialObject rnd s.randomCalls configs
      { s with celestialObjects := s.celestialObjects ++ [celestialObject], randomCalls := n })
    s

/-- The function `restart()`; `resetCamera` touches the camera only. -/
def restart (rnd : ℕ → K) (s : SimState K) : SimState K :=
  init rnd (clearCelestialObjects s)

/-- The state after the module body has run: the built-in defaults, the given
configuration list, and the first `init()`. -/
def startState (rnd : ℕ → K) (configs : List (Config K)) : SimState K :=
  init rnd
    { timeRate := 50,
      bodiesNumber := 3,
      celestialObjectConfigs := configs,
      celestialObjects := [],
      randomCalls := 0 }

/-- One frame of `animate()`; `delta` is the value returned by `clock.getDelta()`. -/
def animate (ops : MathOps K) (delta : K) (s : SimState K) : SimState K :=
  let deltaTime := delta * s.timeRate
  let s := { s with celestialObjects := updateState ops s.celestialObjects deltaTime }
  { s with celestialObjects := updateCelestialObjects s.celestialObjects }

/-- The body of the `for` loop of the random-button handler: one configuration. -/
def randomConfig (rnd : ℕ → K) (n : ℕ) : Config K × ℕ :=
  let radius := rnd n * 5 + 1
  let n := n + 1
  let (color, n) := getRandomColor rnd n
  let (position, n) := getRandomPosition rnd n 400
  let (velocity, n) := getRandomVelocity rnd n (1 / 2)
  let mass := rnd n * 100000 + 10000
  let n := n + 1
  (⟨radius, some color, position, velocity, mass⟩, n)

/-- The configuration list built by the random-button handler before `restart()`. -/
def randomConfigs (rnd : ℕ → K) (s : SimState K) : SimState K :=
  (List.range s.bodiesNumber).foldl
    (fun s _ =>
      let (configs, n) := randomConfig rnd s.randomCalls
      { s with celestialObjectConfigs := s.celestialObjectConfigs ++ [configs],
               randomCalls := n })
    { s with celestialObjectConfigs := [] }

/-- The click handler of the random button. -/
def randomButtonClick (rnd : ℕ → K) (s : SimState K) : SimState K :=
  restart rnd (randomConfigs rnd s)

/-! ## Auxiliary definitions used to state the theorems -/

section Aux

variable {K : Type} [LinearOrderedField K]

/-- The array after the first `k` iterations of the outer loop of `updateState`. -/
def updateStateUpTo (ops : MathOps K) (deltaTime : K)
    (celestialObjects : List (CelestialObject K)) (k : ℕ) : List (CelestialObject K) :=
  (List.range k).foldl (updateStateStep ops deltaTime) celestialObjects

/-- The sum of a list of vectors. -/
def Vec3.sum : List (Vec3 K) → Vec3 K
  | [] => Vec3.zero
  | v :: vs => v.add (Vec3.sum vs)

/-- The net force on `body`, sitting at index `i`, as the spec words it: the sum
over all `j ≠ i` of `calculateGravitationalForce(body, snapshot[j])`. -/
def netForceOn (ops : MathOps K) (snapshot : List (CelestialObject K))
    (body : CelestialObject K) (i : ℕ) : Vec3 K :=
  Vec3.sum ((snapshot.enum.filter fun jb => jb.1 ≠ i).map
    fun jb => calculateGravitationalForce ops body jb.2)

/-- The body `celestialObject` after the outer loop of `updateState` has
processed it with accumulated force `force`. -/
def integrateBody (ops : MathOps K) (deltaTime : K) (force : Vec3 K)
    (celestialObject : CelestialObject K) : CelestialObject K :=
  { celestialObject with
    velocity := celestialObject.velocity.add
      ((force.divideScalar ops celestialObject.mass).multiplyScalar deltaTime),
    position := celestialObject.position.add
      ((celestialObject.velocity.add
        ((force.divideScalar ops celestialObject.mass).multiplyScalar deltaTime)).multiplyScalar
          deltaTime) }

/-- Successive `updateTrail` calls with the same cap, the body standing at the
given positions in turn (one call per position). -/
def recordPositions (celestialObject : CelestialObject K) (positions : List (Vec3 K))
    (maxTrailPoints : ℤ) : CelestialObject K :=
  positions.foldl
    (fun o position => updateTrail { o with position := position } maxTrailPoints)
    celestialObject

/-- The physical state of a body: mass, position and velocity. -/
def CelestialObject.kinematics (o : CelestialObject K) : K × Vec3 K × Vec3 K :=
  (o.mass, o.position, o.velocity)

/-- The physical state a configuration prescribes: mass, initial position and
initial velocity. -/
def Config.kinematics (c : Config K) : K × Vec3 K × Vec3 K :=
  (c.mass, c.position, c.velocity)

/-- Successive frames of `animate()`, one per entry of `deltas`. -/
def runFrames (ops : MathOps K) (deltas : List K) (s : SimState K) : SimState K :=
  deltas.foldl (fun s delta => animate ops delta s) s

/-- The bounds the spec lists for a randomly generated configuration: radius in
`[1, 6]`, mass in `[10000, 110000]`, each position component an integer in
`[0, 400)`, each velocity component in `[-1/2, 1/2]`. -/
def Config.InRandomBounds [FloorRing K] (c : Config K) : Prop :=
  (1 ≤ c.radius ∧ c.radius ≤ 6) ∧
  (10000 ≤ c.mass ∧ c.mass ≤ 110000) ∧
  (0 ≤ c.position.x ∧ c.position.x < 400 ∧ ((⌊c.position.x⌋ : ℤ) : K) = c.position.x) ∧
  (0 ≤ c.position.y ∧ c.position.y < 400 ∧ ((⌊c.position.y⌋ : ℤ) : K) = c.position.y) ∧
  (0 ≤ c.position.z ∧ c.position.z < 400 ∧ ((⌊c.position.z⌋ : ℤ) : K) = c.position.z) ∧
  (-(1 / 2) ≤ c.velocity.x ∧ c.velocity.x ≤ 1 / 2) ∧
  (-(1 / 2) ≤ c.velocity.y ∧ c.velocity.y ≤ 1 / 2) ∧
  (-(1 / 2) ≤ c.velocity.z ∧ c.velocity.z ≤ 1 / 2)

end Aux

/-! ## Sample data -/

/-- A body with the given mass, position and velocity, a unit black sphere and
an empty trail. -/
def mkBody {K : Type} [LinearOrderedField K] (mass : K) (position velocity : Vec3 K) :
    CelestialObject K :=
  ⟨⟨1, ⟨0, 0, 0⟩, ⟨0, 0, 0⟩⟩, ⟨⟨0, 0, 0⟩, []⟩, mass, position, velocity⟩

/-- Two bodies of mass 1000 at rest, placed at `(1, 0, 0)` and `(-1, 0, 0)`. -/
def symmetricPair {K : Type} [LinearOrderedField K] : List (CelestialObject K) :=
  [mkBody 1000 ⟨1, 0, 0⟩ ⟨0, 0, 0⟩, mkBody 1000 ⟨-1, 0, 0⟩ ⟨0, 0, 0⟩]

/-- A state with the built-in configurations and no bodies, set to generate
`bodiesNumber` random bodies. -/
def sampleState {K : Type} [LinearOrderedField K] (bodiesNumber : ℕ) : SimState K :=
  { timeRate := 50,
    bodiesNumber := bodiesNumber,
    celestialObjectConfigs := initialConfigs,
    celestialObjects := [],
    randomCalls := 0 }

/-! ## Theorems: the pairwise force -/

section Force

variable {K : Type} [LinearOrderedField K]

/-- C4: two bodies at identical positions exert exactly the zero force on each
other, whatever their masses and whatever the division and square-root
primitives do (so the result does not depend on any division by zero). -/
theorem calculateGravitationalForce_collocated (ops : MathOps K) (a b : CelestialObject K)
    (h : a.position = b.position) :
    calculateGravitationalForce ops a b = ⟨0, 0, 0⟩ := by
  simp [calculateGravitationalForce, Vec3.subVectors, Vec3.lengthSq, Vec3.zero, h]

theorem calculateGravitationalForce_collocated_witness :
    calculateGravitationalForce (⟨fun _ => 7, fun _ _ => 9⟩ : MathOps ℚ)
        ⟨⟨1, ⟨0, 0, 0⟩, ⟨1, 2, 3⟩⟩, ⟨⟨0, 0, 0⟩, []⟩, 5, ⟨1, 2, 3⟩, ⟨0, 0, 0⟩⟩
        ⟨⟨1, ⟨0, 0, 0⟩, ⟨1, 2, 3⟩⟩, ⟨⟨0, 0, 0⟩, []⟩, 0, ⟨1, 2, 3⟩, ⟨4, 4, 4⟩⟩
      = ⟨0, 0, 0⟩ :=
  calculateGravitationalForce_collocated _ _ _ rfl

end Force

/-! ## Theorems: the integrator -/

section Update

variable {K : Type} [LinearOrderedField K]

theorem Vec3.add_assoc3 (u v w : Vec3 K) : (u.add v).add w = u.add (v.add w) := by
  simp [Vec3.add, add_assoc]

theorem Vec3.add_zero_right (u : Vec3 K) : u.add Vec3.zero = u := by
  simp [Vec3.add, Vec3.zero]

theorem Vec3.zero_add_left (u : Vec3 K) : Vec3.zero.add u = u := by
  simp [Vec3.add, Vec3.zero]

theorem totalForce_foldl_eq (ops : MathOps K) (o : CelestialObject K) (i : ℕ)
    (l : List (ℕ × CelestialObject K)) (acc : Vec3 K) :
    l.foldl (fun total jb =>
        if i ≠ jb.1 then total.add (calculateGravitationalForce ops o jb.2) else total) acc
      = acc.add (Vec3.sum ((l.filter fun jb => jb.1 ≠ i).map
          fun jb => calculateGravitationalForce ops o jb.2)) := by
  induction l generalizing acc with
  | nil => simp [Vec3.sum, Vec3.add_zero_right]
  | cons hd tl ih =>
    rw [List.foldl_cons, ih]
    by_cases h : i = hd.1
    · have h2 : ¬ (hd.1 ≠ i) := fun hne => hne h.symm
      simp [h, List.filter_cons]
    · have h2 : hd.1 ≠ i := fun he => h he.symm
      simp [h, h2, List.filter_cons, Vec3.sum, Vec3.add_assoc3]

/-- The inner loop of `updateState` computes the sum over `j ≠ i`. -/
theorem totalForce_eq_netForceOn (ops : MathOps K) (l : List (CelestialObject K))
    (o : CelestialObject K) (i : ℕ) :
    totalForce ops l o i = netForceOn ops l o i := by
  unfold totalForce netForceOn
  rw [totalForce_foldl_eq, Vec3.zero_add_left]

theorem updateStateStep_eq (ops : MathOps K) (dt : K) (l : List (CelestialObject K)) (i : ℕ)
    (o : CelestialObject K) (h : l[i]? = some o) :
    updateStateStep ops dt l i = l.set i (integrateBody ops dt (totalForce ops l o i) o) := by
  simp [updateStateStep, h, integrateBody]

theorem updateStateStep_length (ops : MathOps K) (dt : K) (l : List (CelestialObject K))
    (i : ℕ) : (updateStateStep ops dt l i).length = l.length := by
  unfold updateStateStep
  split <;> simp

theorem updateStateStep_getElem?_ne (ops : MathOps K) (dt : K)
    (l : List (CelestialObject K)) (i j : ℕ) (h : i ≠ j) :
    (updateStateStep ops dt l i)[j]? = l[j]? := by
  unfold updateStateStep
  split
  · rfl
  · simp [List.getElem?_set_ne h]

theorem updateStateUpTo_succ (ops : MathOps K) (dt : K) (l : List (CelestialObject K))
    (k : ℕ) :
    updateStateUpTo ops dt l (k + 1) = updateStateStep ops dt (updateStateUpTo ops dt l k) k := by
  simp [updateStateUpTo, List.range_succ, List.foldl_append]

theorem updateStateUpTo_length (ops : MathOps K) (dt : K) (l : List (CelestialObject K))
    (k : ℕ) : (updateStateUpTo ops dt l k).length = l.length := by
  induction k with
  | zero => simp [updateStateUpTo]
  | succ k ih => rw [updateStateUpTo_succ, updateStateStep_length, ih]

/-- Entries not yet reached by the outer loop still hold their pre-tick value. -/
theorem updateStateUpTo_getElem?_ge (ops : MathOps K) (dt : K)
    (l : List (CelestialObject K)) (k j : ℕ) (h : k ≤ j) :
    (updateStateUpTo ops dt l k)[j]? = l[j]? := by
  induction k with
  | zero => simp [updateStateUpTo]
  | succ k ih =>
    rw [updateStateUpTo_succ, updateStateStep_getElem?_ne _ _ _ _ _ (by omega)]
    exact ih (by omega)

/-- Entries already processed are not touched again. -/
theorem updateStateUpTo_getElem?_lt (ops : MathOps K) (dt : K)
    (l : List (CelestialObject K)) (j k : ℕ) (h : j < k) :
    (updateStateUpTo ops dt l k)[j]? = (updateStateUpTo ops dt l (j + 1))[j]? := by
  induction k with
  | zero => omega
  | succ k ih =>
    by_cases hk : j = k
    · subst hk; rfl
    · rw [updateStateUpTo_succ, updateStateStep_getElem?_ne _ _ _ _ _ (by omega)]
      exact ih (by omega)

theorem updateState_eq_upTo (ops : MathOps K) (dt : K) (l : List (CelestialObject K)) :
    updateState ops l dt = updateStateUpTo ops dt l l.length := rfl

/-- When the outer loop reaches index `i`, the array holds the post-tick bodies
at indices below `i` and the pre-tick bodies from `i` on. -/
theorem updateStateUpTo_eq_take_drop (ops : MathOps K) (dt : K)
    (l : List (CelestialObject K)) (i : ℕ) (hi : i ≤ l.length) :
    updateStateUpTo ops dt l i = (updateState ops l dt).take i ++ l.drop i := by
  apply List.ext_getElem?
  intro j
  have hlen : ((updateState ops l dt).take i).length = i := by
    rw [List.length_take, updateState_eq_upTo, updateStateUpTo_length]
    omega
  by_cases hj : j < i
  · rw [List.getElem?_append_left (by omega), List.getElem?_take_of_lt hj,
      updateState_eq_upTo, updateStateUpTo_getElem?_lt _ _ _ _ _ hj]
    by_cases hjl : j + 1 = l.length
    · rw [hjl]
    · rw [updateStateUpTo_getElem?_lt _ _ _ j l.length (by omega)]
  · rw [List.getElem?_append_right (by omega), hlen, List.getElem?_drop,
      updateStateUpTo_getElem?_ge _ _ _ _ _ (by omega)]
    congr 1
    omega

/-- The body at index `i` after `updateState`: it is integrated once, with the
force accumulated from the array as it stands when the loop reaches `i`. -/
theorem updateState_getElem? (ops : MathOps K) (dt : K) (l : List (CelestialObject K))
    (i : ℕ) (o : CelestialObject K) (h : l[i]? = some o) :
    (updateState ops l dt)[i]?
      = some (integrateBody ops dt
          (totalForce ops ((updateState ops l dt).take i ++ l.drop i) o i) o) := by
  have hi : i < l.length := by
    rcases List.getElem?_eq_some.mp h with ⟨hi, _⟩
    exact hi
  have hpre : (updateStateUpTo ops dt l i)[i]? = some o := by
    rw [updateStateUpTo_getElem?_ge _ _ _ _ _ (le_refl i)]; exact h
  have hstep : (updateStateUpTo ops dt l (i + 1))[i]?
      = some (integrateBody ops dt (totalForce ops (updateStateUpTo ops dt l i) o i) o) := by
    rw [updateStateUpTo_succ, updateStateStep_eq _ _ _ _ _ hpre]
    rw [List.getElem?_set_self (by rw [updateStateUpTo_length]; exact hi)]
  rw [← updateStateUpTo_eq_take_drop _ _ _ _ hi.le, ← hstep, updateState_eq_upTo]
  by_cases hil : i + 1 = l.length
  · rw [hil]
  · rw [updateStateUpTo_getElem?_lt _ _ _ i l.length (by omega)]

/-- The force between two bodies on the x axis, over the reals. -/
theorem force_on_x_axis (a b : CelestialObject ℝ) (xa xb : ℝ)
    (ha : a.position = ⟨xa, 0, 0⟩) (hb : b.position = ⟨xb, 0, 0⟩) (hne : xa ≠ xb) :
    calculateGravitationalForce (fieldOps Real.sqrt) a b
      = ⟨(xb - xa) * (1 / |xb - xa|) * (G * a.mass * b.mass / ((xb - xa) * (xb - xa))), 0, 0⟩ := by
  have hd : (xb - xa) * (xb - xa) ≠ 0 := mul_self_ne_zero.mpr (sub_ne_zero.mpr (Ne.symm hne))
  have hs : |xb - xa| ≠ 0 := abs_ne_zero.mpr (sub_ne_zero.mpr (Ne.symm hne))
  simp [calculateGravitationalForce, Vec3.subVectors, Vec3.lengthSq, Vec3.normalize,
    Vec3.divideScalar, Vec3.length, Vec3.multiplyScalar, fieldOps, ha, hb, hd, hs,
    Real.sqrt_mul_self_eq_abs, sub_eq_zero, Ne.symm hne]

theorem symmetricPair_after_one_tick :
    updateState (fieldOps Real.sqrt) (symmetricPair : List (CelestialObject ℝ)) 1
      = [mkBody 1000 ⟨3 / 4, 0, 0⟩ ⟨-1 / 4, 0, 0⟩, mkBody 1000 ⟨-33 / 49, 0, 0⟩ ⟨16 / 49, 0, 0⟩] := by
  have f01 : calculateGravitationalForce (fieldOps Real.sqrt)
      (mkBody (1000 : ℝ) ⟨1, 0, 0⟩ ⟨0, 0, 0⟩) (mkBody 1000 ⟨-1, 0, 0⟩ ⟨0, 0, 0⟩)
      = ⟨-250, 0, 0⟩ := by
    rw [force_on_x_axis _ _ 1 (-1) rfl rfl (by norm_num)]
    norm_num [mkBody, G, abs_of_neg]
  have f10 : calculateGravitationalForce (fieldOps Real.sqrt)
      (mkBody (1000 : ℝ) ⟨-1, 0, 0⟩ ⟨0, 0, 0⟩) (mkBody 1000 ⟨3 / 4, 0, 0⟩ ⟨-1 / 4, 0, 0⟩)
      = ⟨16000 / 49, 0, 0⟩ := by
    rw [force_on_x_axis _ _ (-1) (3 / 4) rfl rfl (by norm_num)]
    norm_num [mkBody, G, abs_of_pos]
  have h0 : updateStateStep (fieldOps Real.sqrt) 1 (symmetricPair : List (CelestialObject ℝ)) 0
      = [mkBody 1000 ⟨3 / 4, 0, 0⟩ ⟨-1 / 4, 0, 0⟩, mkBody 1000 ⟨-1, 0, 0⟩ ⟨0, 0, 0⟩] := by
    simp only [updateStateStep, symmetricPair, totalForce, List.enum, List.enumFrom,
      List.foldl, List.getElem?_cons_zero, f01]
    norm_num [mkBody, Vec3.add, Vec3.zero, Vec3.divideScalar, Vec3.multiplyScalar, fieldOps]
  have h1 : updateStateStep (fieldOps Real.sqrt) 1
      [mkBody (1000 : ℝ) ⟨3 / 4, 0, 0⟩ ⟨-1 / 4, 0, 0⟩, mkBody 1000 ⟨-1, 0, 0⟩ ⟨0, 0, 0⟩] 1
      = [mkBody 1000 ⟨3 / 4, 0, 0⟩ ⟨-1 / 4, 0, 0⟩,
          mkBody 1000 ⟨-33 / 49, 0, 0⟩ ⟨16 / 49, 0, 0⟩] := by
    simp only [updateStateStep, totalForce, List.enum, List.enumFrom,
      List.foldl, List.getElem?_cons_succ, List.getElem?_cons_zero, f10]
    norm_num [mkBody, Vec3.add, Vec3.zero, Vec3.divideScalar, Vec3.multiplyScalar, fieldOps]
  have hr : List.range (symmetricPair : List (CelestialObject ℝ)).length = [0, 1] := rfl
  rw [updateState, hr, List.foldl_cons, List.foldl_cons, List.foldl_nil, h0, h1]

/-- C1 (as amended): the force sum of body `i` is taken over the array as it
stands when the outer loop reaches `i`: bodies `j < i` enter with their
already-updated (post-tick) state, bodies `j > i` with their pre-tick state.
With positive masses, the new velocity of body `i` is its old velocity plus
`dt / mass_i` times the sum over `j ≠ i` of `calculateGravitationalForce`
evaluated on that mixed array. -/
theorem updateState_velocity_sequential (sqrt : K → K) (dt : K)
    (l : List (CelestialObject K)) (hm : ∀ o ∈ l, 0 < o.mass)
    (i : ℕ) (o : CelestialObject K) (h : l[i]? = some o) :
    ∃ o1 : CelestialObject K, (updateState (fieldOps sqrt) l dt)[i]? = some o1 ∧
      o1.velocity = o.velocity.add
        ((netForceOn (fieldOps sqrt)
            ((updateState (fieldOps sqrt) l dt).take i ++ l.drop i) o i).multiplyScalar
          (dt / o.mass)) := by
  have hpos : 0 < o.mass := hm o (List.getElem?_mem h)
  refine ⟨_, updateState_getElem? (fieldOps sqrt) dt l i o h, ?_⟩
  rw [← totalForce_eq_netForceOn]
  simp only [integrateBody, Vec3.divideScalar, Vec3.multiplyScalar, fieldOps]
  congr 1
  simp only [Vec3.mk.injEq]
  have hne := ne_of_gt hpos
  refine ⟨?_, ?_, ?_⟩ <;> field_simp

theorem updateState_velocity_sequential_witness :
    ∃ o1 : CelestialObject ℝ,
      (updateState (fieldOps Real.sqrt) symmetricPair 1)[1]? = some o1 ∧
      o1.velocity = (mkBody (1000 : ℝ) ⟨-1, 0, 0⟩ ⟨0, 0, 0⟩).velocity.add
        ((netForceOn (fieldOps Real.sqrt)
            ((updateState (fieldOps Real.sqrt) symmetricPair 1).take 1
              ++ (symmetricPair : List (CelestialObject ℝ)).drop 1)
            (mkBody 1000 ⟨-1, 0, 0⟩ ⟨0, 0, 0⟩) 1).multiplyScalar
          (1 / (mkBody (1000 : ℝ) ⟨-1, 0, 0⟩ ⟨0, 0, 0⟩).mass)) :=
  updateState_velocity_sequential Real.sqrt 1 symmetricPair
    (by simp [symmetricPair, mkBody]) 1 (mkBody 1000 ⟨-1, 0, 0⟩ ⟨0, 0, 0⟩) rfl

/-- C1 (counterexample): for the pair of mass-1000 bodies at rest at `(1,0,0)` and
`(-1,0,0)` and `dt = 1`, the second body leaves `updateState` with velocity
`(16/49, 0, 0)`, whereas its old velocity plus `dt / mass` times the force sum
over the pre-tick positions is `(1/4, 0, 0)`. -/
theorem updateState_snapshot_counterexample :
    ((updateState (fieldOps Real.sqrt) (symmetricPair : List (CelestialObject ℝ)) 1)[1]?).map
        (fun o => o.velocity) = some ⟨16 / 49, 0, 0⟩ ∧
    (mkBody (1000 : ℝ) ⟨-1, 0, 0⟩ ⟨0, 0, 0⟩).velocity.add
        ((netForceOn (fieldOps Real.sqrt) symmetricPair
          (mkBody 1000 ⟨-1, 0, 0⟩ ⟨0, 0, 0⟩) 1).multiplyScalar (1 / 1000))
      = ⟨1 / 4, 0, 0⟩ ∧
    (⟨16 / 49, 0, 0⟩ : Vec3 ℝ) ≠ ⟨1 / 4, 0, 0⟩ := by
  refine ⟨?_, ?_, ?_⟩
  · rw [symmetricPair_after_one_tick]
    simp [mkBody]
  · have f : calculateGravitationalForce (fieldOps Real.sqrt)
        (mkBody (1000 : ℝ) ⟨-1, 0, 0⟩ ⟨0, 0, 0⟩) (mkBody 1000 ⟨1, 0, 0⟩ ⟨0, 0, 0⟩)
        = ⟨250, 0, 0⟩ := by
      rw [force_on_x_axis _ _ (-1) 1 rfl rfl (by norm_num)]
      norm_num [mkBody, G, abs_of_pos]
    simp only [netForceOn, symmetricPair, List.enum, List.enumFrom, List.filter, List.map,
      Vec3.sum, f]
    norm_num [mkBody, Vec3.add, Vec3.zero, Vec3.multiplyScalar]
  · simp only [ne_eq, Vec3.mk.injEq, not_and]
    norm_num

end Update

/-! ## Theorems: the trail recorder -/

section TrailBound

variable {K : Type} [LinearOrderedField K]

theorem updateTrail_points (o : CelestialObject K) (C : ℤ) (hC : 0 ≤ C)
    (hist : List (Vec3 K))
    (h : o.trail.points = hist.drop (hist.length - C.toNat)) :
    (updateTrail o C).trail.points
      = (hist ++ [o.position]).drop ((hist ++ [o.position]).length - C.toNat) := by
  have hne : C ≠ -1 := by omega
  have happ : o.trail.points ++ [o.position]
      = (hist ++ [o.position]).drop (hist.length - C.toNat) := by
    rw [h, List.drop_append_of_le_length (by omega)]
  have hlen : (o.trail.points ++ [o.position]).length
      = hist.length - (hist.length - C.toNat) + 1 := by
    rw [h]; simp
  simp only [updateTrail, if_pos hne]
  by_cases hlt : C < ((o.trail.points ++ [o.position]).length : ℤ)
  · rw [if_pos hlt, happ, List.tail_drop, List.length_append, List.length_singleton]
    congr 1
    rw [hlen] at hlt
    omega
  · rw [if_neg hlt, happ, List.length_append, List.length_singleton]
    congr 1
    rw [hlen] at hlt
    omega

theorem recordPositions_points (C : ℤ) (hC : 0 ≤ C) (ps : List (Vec3 K)) :
    ∀ (o : CelestialObject K) (hist : List (Vec3 K)),
      o.trail.points = hist.drop (hist.length - C.toNat) →
      (recordPositions o ps C).trail.points
        = (hist ++ ps).drop ((hist ++ ps).length - C.toNat) := by
  induction ps with
  | nil => intro o hist h; simpa [recordPositions] using h
  | cons p ps ih =>
    intro o hist h
    have h1 := updateTrail_points { o with position := p } C hC hist h
    have h2 := ih (updateTrail { o with position := p } C) (hist ++ [p]) h1
    simpa [recordPositions] using h2

/-- C6: starting from an empty trail, after `k` calls of `updateTrail` with a
non-negative integer cap `C` the trail holds exactly the last `min k C` recorded
positions, in insertion order, so its length is `min k C` and never exceeds `C`. -/
theorem updateTrail_bound (o : CelestialObject K) (C : ℤ) (ps : List (Vec3 K))
    (hC : 0 ≤ C) (hempty : o.trail.points = []) :
    (recordPositions o ps C).trail.points = ps.drop (ps.length - min ps.length C.toNat) ∧
    (recordPositions o ps C).trail.points.length = min ps.length C.toNat ∧
    ((recordPositions o ps C).trail.points.length : ℤ) ≤ C := by
  have h := recordPositions_points C hC ps o [] (by simp [hempty])
  have hd : ps.length - min ps.length C.toNat = ps.length - C.toNat := by omega
  rw [List.nil_append] at h
  rw [h, hd, List.length_drop]
  refine ⟨rfl, by omega, by omega⟩

theorem updateTrail_bound_witness :
    (recordPositions (mkBody (1 : ℚ) ⟨0, 0, 0⟩ ⟨0, 0, 0⟩)
        [⟨1, 0, 0⟩, ⟨2, 0, 0⟩, ⟨3, 0, 0⟩] 2).trail.points
      = ([⟨1, 0, 0⟩, ⟨2, 0, 0⟩, ⟨3, 0, 0⟩] : List (Vec3 ℚ)).drop
          (([⟨1, 0, 0⟩, ⟨2, 0, 0⟩, ⟨3, 0, 0⟩] : List (Vec3 ℚ)).length
            - min ([⟨1, 0, 0⟩, ⟨2, 0, 0⟩, ⟨3, 0, 0⟩] : List (Vec3 ℚ)).length (2 : ℤ).toNat) ∧
    (recordPositions (mkBody (1 : ℚ) ⟨0, 0, 0⟩ ⟨0, 0, 0⟩)
        [⟨1, 0, 0⟩, ⟨2, 0, 0⟩, ⟨3, 0, 0⟩] 2).trail.points.length
      = min ([⟨1, 0, 0⟩, ⟨2, 0, 0⟩, ⟨3, 0, 0⟩] : List (Vec3 ℚ)).length (2 : ℤ).toNat ∧
    ((recordPositions (mkBody (1 : ℚ) ⟨0, 0, 0⟩ ⟨0, 0, 0⟩)
        [⟨1, 0, 0⟩, ⟨2, 0, 0⟩, ⟨3, 0, 0⟩] 2).trail.points.length : ℤ) ≤ 2 :=
  updateTrail_bound (mkBody 1 ⟨0, 0, 0⟩ ⟨0, 0, 0⟩) 2 [⟨1, 0, 0⟩, ⟨2, 0, 0⟩, ⟨3, 0, 0⟩]
    (by decide) rfl

end TrailBound

/-! ## Theorems: reset -/

section Reset

variable {K : Type} [LinearOrderedField K] [FloorRing K]

theorem createCelestialObject_kinematics (rnd : ℕ → K) (n : ℕ) (c : Config K) :
    (createCelestialObject rnd n c).1.kinematics = c.kinematics ∧
    (createCelestialObject rnd n c).1.trail.points = [] := by
  simp [createCelestialObject, getRandomColor, createLine, CelestialObject.kinematics,
    Config.kinematics]

theorem init_foldl (rnd : ℕ → K) (cfgs : List (Config K)) :
    ∀ s : SimState K,
      let r := cfgs.foldl
        (fun s configs =>
          let (celestialObject, n) := createCelestialObject rnd s.randomCalls configs
          { s with celestialObjects := s.celestialObjects ++ [celestialObject],
                   randomCalls := n })
        s
      r.celestialObjectConfigs = s.celestialObjectConfigs ∧
      r.timeRate = s.timeRate ∧ r.bodiesNumber = s.bodiesNumber ∧
      ∃ added : List (CelestialObject K),
        r.celestialObjects = s.celestialObjects ++ added ∧
        added.map CelestialObject.kinematics = cfgs.map Config.kinematics ∧
        ∀ o ∈ added, o.trail.points = [] := by
  induction cfgs with
  | nil => intro s; exact ⟨rfl, rfl, rfl, [], by simp, rfl, by simp⟩
  | cons c cs ih =>
    intro s
    simp only [List.foldl_cons]
    obtain ⟨h1, h2, h3, added, h4, h5, h6⟩ := ih
      { s with
        celestialObjects := s.celestialObjects ++ [(createCelestialObject rnd s.randomCalls c).1],
        randomCalls := (createCelestialObject rnd s.randomCalls c).2 }
    refine ⟨h1, h2, h3, (createCelestialObject rnd s.randomCalls c).1 :: added, ?_, ?_, ?_⟩
    · rw [h4]; simp
    · simp [h5, (createCelestialObject_kinematics rnd s.randomCalls c).1]
    · intro o ho
      rcases List.mem_cons.mp ho with rfl | ho
      · exact (createCelestialObject_kinematics rnd s.randomCalls c).2
      · exact h6 o ho

theorem restart_spec (rnd : ℕ → K) (s : SimState K) :
    (restart rnd s).celestialObjectConfigs = s.celestialObjectConfigs ∧
    (restart rnd s).celestialObjects.map CelestialObject.kinematics
      = s.celestialObjectConfigs.map Config.kinematics ∧
    ∀ o ∈ (restart rnd s).celestialObjects, o.trail.points = [] := by
  obtain ⟨h1, _, _, added, h4, h5, h6⟩ :=
    init_foldl rnd s.celestialObjectConfigs (clearCelestialObjects s)
  refine ⟨h1, ?_, ?_⟩
  · show (init rnd (clearCelestialObjects s)).celestialObjects.map _ = _
    unfold init
    simp only [clearCelestialObjects] at h4 ⊢
    rw [h4]; simpa using h5
  · show ∀ o ∈ (init rnd (clearCelestialObjects s)).celestialObjects, _
    unfold init
    simp only [clearCelestialObjects] at h4 ⊢
    rw [h4]; simpa using h6

theorem animate_configs (ops : MathOps K) (delta : K) (s : SimState K) :
    (animate ops delta s).celestialObjectConfigs = s.celestialObjectConfigs := rfl

theorem runFrames_configs (ops : MathOps K) (deltas : List K) :
    ∀ s : SimState K,
      (runFrames ops deltas s).celestialObjectConfigs = s.celestialObjectConfigs := by
  induction deltas with
  | nil => intro s; rfl
  | cons d ds ih =>
    intro s
    show (runFrames ops ds (animate ops d s)).celestialObjectConfigs = _
    rw [ih, animate_configs]

theorem startState_configs (rnd : ℕ → K) (configs : List (Config K)) :
    (startState rnd configs).celestialObjectConfigs = configs :=
  (init_foldl rnd configs
    { timeRate := 50, bodiesNumber := 3, celestialObjectConfigs := configs,
      celestialObjects := [], randomCalls := 0 }).1

/-- C7: after any number of frames run from the start state of a configuration
list, `restart()` yields one body per configuration, in order, each with the
mass, initial position and initial velocity of its configuration and an empty
trail; the frames leave the configuration list unchanged; and a second
`restart()` gives the same masses, positions and velocities again. -/
theorem restart_rewinds (ops : MathOps K) (rnd : ℕ → K) (configs : List (Config K))
    (deltas : List K) :
    (runFrames ops deltas (startState rnd configs)).celestialObjectConfigs = configs ∧
    (restart rnd (runFrames ops deltas (startState rnd configs))).celestialObjects.length
      = configs.length ∧
    (∀ (i : ℕ) (c : Config K), configs[i]? = some c →
      ∃ o : CelestialObject K,
        (restart rnd (runFrames ops deltas (startState rnd configs))).celestialObjects[i]?
          = some o ∧
        o.mass = c.mass ∧ o.position = c.position ∧ o.velocity = c.velocity ∧
        o.trail.points = []) ∧
    (restart rnd (restart rnd (runFrames ops deltas (startState rnd configs)))).celestialObjects.map
        CelestialObject.kinematics
      = (restart rnd (runFrames ops deltas (startState rnd configs))).celestialObjects.map
        CelestialObject.kinematics ∧
    (restart rnd (runFrames ops deltas (startState rnd configs))).celestialObjects.map
        CelestialObject.kinematics
      = configs.map Config.kinematics := by
  have hc : (runFrames ops deltas (startState rnd configs)).celestialObjectConfigs = configs := by
    rw [runFrames_configs, startState_configs]
  obtain ⟨r1, r2, r3⟩ := restart_spec rnd (runFrames ops deltas (startState rnd configs))
  obtain ⟨_, q2, _⟩ :=
    restart_spec rnd (restart rnd (runFrames ops deltas (startState rnd configs)))
  rw [hc] at r2
  rw [r1, hc] at q2
  refine ⟨hc, ?_, ?_, ?_, r2⟩
  · have := congrArg List.length r2
    simpa using this
  · intro i c hi
    have hmap := congrArg (fun l => l[i]?) r2
    simp only [List.getElem?_map, hi, Option.map_some'] at hmap
    cases ho : (restart rnd (runFrames ops deltas (startState rnd configs))).celestialObjects[i]? with
    | none => rw [ho] at hmap; simp at hmap
    | some o =>
      rw [ho] at hmap
      simp only [Option.map_some', Option.some.injEq, CelestialObject.kinematics,
        Config.kinematics, Prod.mk.injEq] at hmap
      exact ⟨o, rfl, hmap.1, hmap.2.1, hmap.2.2, r3 o (List.getElem?_mem ho)⟩
  · rw [q2, r2]

end Reset

/-! ## Theorems: random configurations -/

section Randomize

variable {K : Type} [LinearOrderedField K] [FloorRing K]

theorem randomConfig_calls (rnd : ℕ → K) (n : ℕ) : (randomConfig rnd n).2 = n + 11 := by
  simp [randomConfig, getRandomColor, getRandomPosition, getRandomVelocity]

theorem randomConfigs_foldl (rnd : ℕ → K) (m : ℕ) (t : SimState K) :
    ((List.range m).foldl
        (fun s _ =>
          let (configs, n) := randomConfig rnd s.randomCalls
          { s with celestialObjectConfigs := s.celestialObjectConfigs ++ [configs],
                   randomCalls := n })
        t).celestialObjectConfigs
      = t.celestialObjectConfigs
          ++ (List.range m).map (fun i => (randomConfig rnd (t.randomCalls + 11 * i)).1) ∧
    ((List.range m).foldl
        (fun s _ =>
          let (configs, n) := randomConfig rnd s.randomCalls
          { s with celestialObjectConfigs := s.celestialObjectConfigs ++ [configs],
                   randomCalls := n })
        t).randomCalls = t.randomCalls + 11 * m := by
  induction m with
  | zero => simp
  | succ m ih =>
    rw [List.range_succ, List.foldl_append]
    simp only [List.foldl_cons, List.foldl_nil, List.map_append, List.map_cons, List.map_nil]
    rw [ih.1, ih.2, randomConfig_calls]
    refine ⟨by simp, by ring⟩

theorem floor_scaled_bounds (u : K) (h0 : 0 ≤ u) (h1 : u < 1) :
    (0 : ℤ) ≤ ⌊u * 400⌋ ∧ ⌊u * 400⌋ ≤ 399 := by
  have hz : (0 : ℤ) ≤ ⌊u * 400⌋ := Int.floor_nonneg.mpr (by positivity)
  have hlt : ⌊u * 400⌋ < 400 := by
    rw [Int.floor_lt]; push_cast; linarith
  exact ⟨hz, by omega⟩

theorem randomConfig_inRandomBounds (rnd : ℕ → K) (hrnd : ∀ k, 0 ≤ rnd k ∧ rnd k < 1)
    (n : ℕ) : (randomConfig rnd n).1.InRandomBounds := by
  have comp : ∀ k, (0 : K) ≤ ((⌊rnd k * 400⌋ : ℤ) : K) ∧ ((⌊rnd k * 400⌋ : ℤ) : K) < 400 := by
    intro k
    obtain ⟨a, b⟩ := floor_scaled_bounds (rnd k) (hrnd k).1 (hrnd k).2
    have b2 : ⌊rnd k * 400⌋ < 400 := by omega
    exact ⟨by exact_mod_cast a, by exact_mod_cast b2⟩
  simp only [Config.InRandomBounds, randomConfig, getRandomColor, getRandomPosition,
    getRandomVelocity, Int.floor_intCast]
  refine ⟨⟨?_, ?_⟩, ⟨?_, ?_⟩, ⟨(comp _).1, (comp _).2, trivial⟩, ⟨(comp _).1, (comp _).2, trivial⟩,
    ⟨(comp _).1, (comp _).2, trivial⟩, ⟨?_, ?_⟩, ⟨?_, ?_⟩, ⟨?_, ?_⟩⟩ <;>
  first
    | linarith [(hrnd n).1, (hrnd n).2]
    | linarith [(hrnd (n + 1 + 3 + 3)).1, (hrnd (n + 1 + 3 + 3)).2]
    | linarith [(hrnd (n + 1 + 3 + 3 + 1)).1, (hrnd (n + 1 + 3 + 3 + 1)).2]
    | linarith [(hrnd (n + 1 + 3 + 3 + 2)).1, (hrnd (n + 1 + 3 + 3 + 2)).2]
    | linarith [(hrnd (n + 1 + 3 + 3 + 3)).1, (hrnd (n + 1 + 3 + 3 + 3)).2]

theorem randomConfigs_spec (rnd : ℕ → K) (s : SimState K) :
    (randomConfigs rnd s).celestialObjectConfigs
      = (List.range s.bodiesNumber).map
          (fun i => (randomConfig rnd (s.randomCalls + 11 * i)).1) := by
  unfold randomConfigs
  rw [(randomConfigs_foldl rnd s.bodiesNumber { s with celestialObjectConfigs := [] }).1]
  simp

theorem randomButtonClick_configs (rnd : ℕ → K) (s : SimState K) :
    (randomButtonClick rnd s).celestialObjectConfigs
      = (List.range s.bodiesNumber).map
          (fun i => (randomConfig rnd (s.randomCalls + 11 * i)).1) := by
  unfold randomButtonClick
  rw [(restart_spec rnd (randomConfigs rnd s)).1, randomConfigs_spec]

/-- C9: with every `Math.random()` draw in `[0, 1)`, the random-button handler
replaces the configuration list by exactly `bodiesNumber` new configurations
(none of the previous ones survives), and each of them has radius in `[1, 6]`,
mass in `[10000, 110000]`, integral position components in `[0, 400)` and
velocity components in `[-1/2, 1/2]`. -/
theorem randomButtonClick_bounds (rnd : ℕ → K) (s : SimState K)
    (hrnd : ∀ k, 0 ≤ rnd k ∧ rnd k < 1) :
    (randomButtonClick rnd s).celestialObjectConfigs
      = (List.range s.bodiesNumber).map
          (fun i => (randomConfig rnd (s.randomCalls + 11 * i)).1) ∧
    (randomButtonClick rnd s).celestialObjectConfigs.length = s.bodiesNumber ∧
    ∀ c ∈ (randomButtonClick rnd s).celestialObjectConfigs, c.InRandomBounds := by
  have h := randomButtonClick_configs rnd s
  refine ⟨h, by rw [h]; simp, ?_⟩
  intro c hc
  rw [h] at hc
  obtain ⟨i, _, rfl⟩ := List.mem_map.mp hc
  exact randomConfig_inRandomBounds rnd hrnd _

theorem randomButtonClick_bounds_witness :
    (randomButtonClick (fun _ => (1 / 2 : ℚ)) (sampleState 2)).celestialObjectConfigs
      = (List.range (sampleState 2 : SimState ℚ).bodiesNumber).map
          (fun i => (randomConfig (fun _ => (1 / 2 : ℚ))
            ((sampleState 2 : SimState ℚ).randomCalls + 11 * i)).1) ∧
    (randomButtonClick (fun _ => (1 / 2 : ℚ)) (sampleState 2)).celestialObjectConfigs.length
      = (sampleState 2 : SimState ℚ).bodiesNumber ∧
    ∀ c ∈ (randomButtonClick (fun _ => (1 / 2 : ℚ)) (sampleState 2)).celestialObjectConfigs,
      c.InRandomBounds :=
  randomButtonClick_bounds (fun _ => (1 / 2 : ℚ)) (sampleState 2)
    (fun _ => ⟨by norm_num, by norm_num⟩)

/-- C10 (as amended): with every `Math.random()` draw in `[0, 1)`, each component
of a position generated for the random-button handler, `getRandomPosition(400)`,
is an integer between `0` and `399`: the positions fill a cube of side 400 with
one corner at the origin. -/
theorem getRandomPosition_bounds (rnd : ℕ → K) (n : ℕ)
    (hrnd : ∀ k, 0 ≤ rnd k ∧ rnd k < 1) :
    (randomConfig rnd n).1.position = (getRandomPosition rnd (n + 4) 400).1 ∧
    (∃ x : ℤ, 0 ≤ x ∧ x ≤ 399 ∧ (getRandomPosition rnd (n + 4) 400).1.x = (x : K)) ∧
    (∃ y : ℤ, 0 ≤ y ∧ y ≤ 399 ∧ (getRandomPosition rnd (n + 4) 400).1.y = (y : K)) ∧
    (∃ z : ℤ, 0 ≤ z ∧ z ≤ 399 ∧ (getRandomPosition rnd (n + 4) 400).1.z = (z : K)) := by
  refine ⟨rfl, ⟨_, (floor_scaled_bounds _ (hrnd _).1 (hrnd _).2).1,
      (floor_scaled_bounds _ (hrnd _).1 (hrnd _).2).2, rfl⟩,
    ⟨_, (floor_scaled_bounds _ (hrnd _).1 (hrnd _).2).1,
      (floor_scaled_bounds _ (hrnd _).1 (hrnd _).2).2, rfl⟩,
    ⟨_, (floor_scaled_bounds _ (hrnd _).1 (hrnd _).2).1,
      (floor_scaled_bounds _ (hrnd _).1 (hrnd _).2).2, rfl⟩⟩

theorem getRandomPosition_bounds_witness :
    (randomConfig (fun _ => (3 / 4 : ℚ)) 0).1.position
      = (getRandomPosition (fun _ => (3 / 4 : ℚ)) (0 + 4) 400).1 ∧
    (∃ x : ℤ, 0 ≤ x ∧ x ≤ 399 ∧
      (getRandomPosition (fun _ => (3 / 4 : ℚ)) (0 + 4) 400).1.x = (x : ℚ)) ∧
    (∃ y : ℤ, 0 ≤ y ∧ y ≤ 399 ∧
      (getRandomPosition (fun _ => (3 / 4 : ℚ)) (0 + 4) 400).1.y = (y : ℚ)) ∧
    (∃ z : ℤ, 0 ≤ z ∧ z ≤ 399 ∧
      (getRandomPosition (fun _ => (3 / 4 : ℚ)) (0 + 4) 400).1.z = (z : ℚ)) :=
  getRandomPosition_bounds (fun _ => (3 / 4 : ℚ)) 0 (fun _ => ⟨by norm_num, by norm_num⟩)

/-- C10 (counterexample): when every `Math.random()` draw is `3/4`, the handler
run for one body stores the position `(300, 300, 300)`, whose components lie
outside `[-200, 200]`. -/
theorem getRandomPosition_counterexample :
    (randomButtonClick (fun _ => (3 / 4 : ℚ)) (sampleState 1)).celestialObjectConfigs.map
        (fun c => c.position) = [⟨300, 300, 300⟩] ∧
    (getRandomPosition (fun _ => (3 / 4 : ℚ)) 4 400).1 = ⟨300, 300, 300⟩ ∧
    ¬ ((300 : ℚ) ≤ 200) := by
  have hfloor : ⌊(3 / 4 : ℚ) * 400⌋ = 300 := by norm_num
  refine ⟨?_, ?_, by norm_num⟩
  · rw [randomButtonClick_configs]
    simp [sampleState, randomConfig, getRandomPosition, getRandomColor, getRandomVelocity,
      hfloor]
  · simp [getRandomPosition, hfloor]

end Randomize

/-! ## Theorems: the symmetric pair -/

section Symmetry

variable {K : Type} [LinearOrderedField K]

end Symmetry

end ThreeBody
